import Mathlib

/-!
# Evaluation Report Synthesis Engine — shallow embedding

This file embeds the report-synthesis logic of `src/src/app/page.tsx`
(the CV-Comparison frontend) into Lean and proves/refutes the spec's
claims about it.

Modelling conventions:
* A JS value that may be `undefined`/`null` is an `Option`.
* JS numbers are modelled as `Int` (the claims only depend on order,
  equality with zero, and formatting of whole values).
* JS string/number truthiness (`x || d`, `if (x)`) is modelled by the
  `jsOr*`/`jsTruthy*` helpers below: `""`, `0`, `null`, `undefined` are
  falsy.
* A JS expression that throws a `TypeError` (property access on
  `undefined`) is modelled by an `Option`-valued function returning
  `none`.
-/

/-- JS truthiness of a possibly-undefined string (`undefined`, `null`
and `""` are falsy). -/
def jsTruthyStr : Option String → Bool
  | none => false
  | some s => !(s == "")

/-- JS `x || d` for a possibly-undefined string. -/
def jsOrStr : Option String → String → String
  | none, d => d
  | some s, d => if s == "" then d else s

/-- JS `x || d` for a possibly-undefined number (`0` is falsy). -/
def jsOrNum : Option Int → Int → Int
  | none, d => d
  | some v, d => if v == 0 then d else v

/-- JS `x > 0` where `x` may be undefined (`undefined > 0` is false). -/
def jsGtZero : Option Int → Bool
  | none => false
  | some v => decide (0 < v)

/-- JS template-literal rendering of a possibly-undefined string
(`undefined` prints as `"undefined"`). -/
def tmplStr : Option String → String
  | none => "undefined"
  | some s => s

/-- JS template-literal rendering of a possibly-undefined number. -/
def tmplInt : Option Int → String
  | none => "undefined"
  | some v => toString v

/-- `n.toFixed(2)` for our integer model of JS numbers. -/
def toFixed2 (n : Int) : String := toString n ++ ".00"

/-- `x?.toFixed(2) || "N/A"` (equivalently
`x != null ? x.toFixed(2) : "N/A"`, since `toFixed` never returns a
falsy string). -/
def fmtScore : Option Int → String
  | none => "N/A"
  | some v => toFixed2 v

/-! ## Data model (the TS interfaces of `page.tsx`, lines 8-74) -/

structure CriterionEntry where
  criterion : String
  weight : Option Int
deriving Repr, DecidableEq

structure GeneralQualifications where
  education : Option Int
  years_of_experience : Option Int
  total : Option Int
deriving Repr, DecidableEq

structure AdequacyForAssignment where
  relevant_project_experience : Option Int
  donor_experience : Option Int
  regional_experience : Option Int
  total : Option Int
deriving Repr, DecidableEq

structure SpecificSkillsCompetencies where
  technical_skills : Option Int
  language_proficiency : Option Int
  certifications : Option Int
  total : Option Int
deriving Repr, DecidableEq

structure Scores where
  general_qualifications : Option GeneralQualifications
  adequacy_for_assignment : Option AdequacyForAssignment
  specific_skills_competencies : Option SpecificSkillsCompetencies
  total_score : Option Int
deriving Repr, DecidableEq

structure DetailedEvaluation where
  criterion : Option String
  weight : Option Int
  score : Option Int
  justification : Option String
deriving Repr, DecidableEq

structure SummaryJustification where
  key_strengths : Option String
  key_weaknesses : Option String
deriving Repr, DecidableEq

structure Candidate where
  candidate_name : Option String
  recommendation : Option String
  scores : Option Scores
  summary_justification : Option SummaryJustification
  detailed_evaluation : Option (List DetailedEvaluation)
deriving Repr, DecidableEq

/-- One row of `comparison_matrix` (the source interface is called
`ComparisonMatrix`).  `rank` is declared a plain `number` in the source
interface and is required by the sort comparator, so it is not optional
here. -/
structure ComparisonMatrix where
  candidate_name : Option String
  total_score : Option Int
  rank : Int
deriving Repr, DecidableEq

structure WhyNotOther where
  candidate_name : Option String
  reason : Option String
deriving Repr, DecidableEq

/-- The polymorphic `justification` field: a plain string or the
structured object (`page.tsx` lines 61-65). -/
inductive Justification where
  | jstr (s : String)
  | jobj (detailed_explanation : Option String) (why_he : Option String)
      (why_not_others : Option (List WhyNotOther))
deriving Repr, DecidableEq

structure FinalRecommendation where
  best_candidate : Option String
  final_decision : Option String
  justification : Option Justification
deriving Repr, DecidableEq

structure JsonData where
  tor_text : Option String
  criteria : Option (List CriterionEntry)
  candidates : Option (List Candidate)
  comparison_matrix : Option (List ComparisonMatrix)
  final_recommendation : Option FinalRecommendation
deriving Repr, DecidableEq

/-! ## Criteria Normalizer (`mapCriteria`, lines 180-210) -/

def findCriterion (cs : List CriterionEntry) (name : String) : Option CriterionEntry :=
  cs.find? (fun c => c.criterion == name)

/-- `data.criteria.find(c => c.criterion === name)?.weight` -/
def foundWeight (cs : List CriterionEntry) (name : String) : Option Int :=
  (findCriterion cs name).bind (fun c => c.weight)

/-- `data.criteria.find(c => c.criterion === name)?.weight || dflt` -/
def lookupWeight (cs : List CriterionEntry) (name : String) (dflt : Int) : Int :=
  jsOrNum (foundWeight cs name) dflt

structure Subitem where
  name : String
  weight : Int
deriving Repr, DecidableEq

structure Category where
  category : String
  weight : String
  subitems : List Subitem
deriving Repr, DecidableEq

/-- `mapCriteria` (lines 180-210).  The `none` case is the
`if (!data?.criteria) return []` guard; note an *empty* criteria array
is truthy in JS, so `some []` takes the main path. -/
def mapCriteria : Option (List CriterionEntry) → List Category
  | none => []
  | some cs =>
    [ { category := "General Qualifications", weight := "20%",
        subitems := [
          { name := "Education", weight := lookupWeight cs "Education" 10 },
          { name := "Years of Experience", weight := lookupWeight cs "Years of Experience" 10 } ] },
      { category := "Adequacy for the Assignment", weight := "50%",
        subitems := [
          { name := "Relevant Project Experience", weight := lookupWeight cs "Relevant Project Experience" 25 },
          { name := "Donor Experience (WB, ADB, etc.)", weight := lookupWeight cs "Donor Experience (WB, ADB, etc.)" 15 },
          { name := "Regional Experience", weight := lookupWeight cs "Regional Experience" 10 } ] },
      { category := "Specific Skills & Competencies", weight := "30%",
        subitems := [
          { name := "Technical Skills", weight := lookupWeight cs "Technical Skills" 15 },
          { name := "Language Proficiency", weight := lookupWeight cs "Language Proficiency" 10 },
          { name := "Certifications", weight := lookupWeight cs "Certifications" 5 } ] } ]

/-- The 8 fixed sub-criterion names with their default weights. -/
def knownSubcriteria : List (String × Int) :=
  [ ("Education", 10), ("Years of Experience", 10),
    ("Relevant Project Experience", 25), ("Donor Experience (WB, ADB, etc.)", 15),
    ("Regional Experience", 10),
    ("Technical Skills", 15), ("Language Proficiency", 10), ("Certifications", 5) ]

def mapCriteriaSubitems (cs : List CriterionEntry) : List Subitem :=
  (mapCriteria (some cs)).flatMap (fun c => c.subitems)

/-! ## Fulfillment Matrix Builder (`getFulfillmentForCandidate`,
lines 216-227) -/

/-- `allCriteria = data?.criteria.map(c => c.criterion) || []`
(line 214), given a present criteria array. -/
def allCriteriaNames (cs : List CriterionEntry) : List String :=
  cs.map (fun c => c.criterion)

/-- The display string produced for one criterion name: the loop body of
`getFulfillmentForCandidate` (lines 219-224). -/
def fulfillmentValue (ev : List DetailedEvaluation) (crit : String) : String :=
  match ev.find? (fun de => de.criterion == some crit) with
  | none => "No work here"
  | some evalItem =>
    if jsGtZero evalItem.score && jsTruthyStr evalItem.justification
        && !(evalItem.justification == some "No evidence in CV.")
    then (evalItem.justification).getD ""
    else "No work here"

/-- JS object property assignment `m[k] = v`: replace if the key exists
(in place, keeping key order), otherwise append. -/
def objSet (m : List (String × String)) (k v : String) : List (String × String) :=
  if m.any (fun p => p.1 == k) then m.map (fun p => if p.1 == k then (k, v) else p)
  else m ++ [(k, v)]

/-- JS object property read `m[k]` (`none` = `undefined`). -/
def objGet (m : List (String × String)) (k : String) : Option String :=
  (m.find? (fun p => p.1 == k)).map (fun p => p.2)

/-- `getFulfillmentForCandidate` (lines 216-227): the `forEach` over
`allCriteria` building `fulfillmentMap`, for a candidate whose
`detailed_evaluation` is present (see `extractEvals` for the
throwing case). -/
def getFulfillmentForCandidate (allCrit : List String) (ev : List DetailedEvaluation) :
    List (String × String) :=
  allCrit.foldl (fun m crit => objSet m crit (fulfillmentValue ev crit)) []

/-! ## Ranking Sorter (`sortedMatrix`, line 212) -/

/-- The sort order used by `[...].sort((a, b) => a.rank - b.rank)`. -/
def rankLe (a b : ComparisonMatrix) : Prop := a.rank ≤ b.rank

instance : DecidableRel rankLe := fun a b => inferInstanceAs (Decidable (a.rank ≤ b.rank))

instance : IsTotal ComparisonMatrix rankLe := ⟨fun a b => Int.le_total a.rank b.rank⟩

instance : IsTrans ComparisonMatrix rankLe := ⟨fun _ _ _ h1 h2 => le_trans h1 h2⟩

/-- The stable ascending-by-rank sort (ES2019 `Array.prototype.sort`
is stable; a stable comparison sort with this comparator is exactly
insertion sort with `rankLe`). -/
def rankSort (l : List ComparisonMatrix) : List ComparisonMatrix :=
  List.insertionSort rankLe l

/-- `sortedMatrix = data?.comparison_matrix ? [...data.comparison_matrix].sort((a,b) => a.rank - b.rank) : []`
(line 212). -/
def sortedMatrixOf : Option (List ComparisonMatrix) → List ComparisonMatrix
  | none => []
  | some m => rankSort m

/-! ## A minimal JS heap, to state the no-mutation (frame) property of
the sort.  JS arrays are heap references; `[...arr]` allocates a fresh
reference and `.sort()` mutates its receiver in place. -/

structure JsHeap where
  arrs : List (Nat × List ComparisonMatrix)
  next : Nat
deriving Repr, DecidableEq

def JsHeap.get (h : JsHeap) (r : Nat) : Option (List ComparisonMatrix) :=
  ((h.arrs).find? (fun p => p.1 == r)).map (fun p => p.2)

def JsHeap.write (h : JsHeap) (r : Nat) (xs : List ComparisonMatrix) : JsHeap :=
  { h with arrs := h.arrs.map (fun p => if p.1 == r then (r, xs) else p) }

def JsHeap.alloc (h : JsHeap) (xs : List ComparisonMatrix) : JsHeap × Nat :=
  ({ arrs := h.arrs ++ [(h.next, xs)], next := h.next + 1 }, h.next)

/-- Every allocated reference is below the allocation counter. -/
def JsHeap.wf (h : JsHeap) : Prop := ∀ p ∈ h.arrs, p.1 < h.next

/-- `[...data.comparison_matrix].sort((a, b) => a.rank - b.rank)`
(line 212) against the heap: read the array at `r`, allocate a spread
copy, then sort the copy in place.  Returns the new heap and the
reference the sorted copy lives at (`none` models the guard taking the
`[]` branch when the array is absent). -/
def spreadSortByRank (h : JsHeap) (r : Nat) : JsHeap × Option Nat :=
  match h.get r with
  | none => (h, none)
  | some xs =>
    let ar := h.alloc xs
    ((ar.1).write ar.2 (rankSort xs), some ar.2)

/-! ## Document Assembler — the DOCX export (`generateDocxReport`,
lines 229-468), as an abstract node tree. -/

inductive DocNode where
  | title (text : String)
  | heading1 (text : String)
  | heading2 (text : String)
  | heading3 (text : String)
  | para (text : String)
  | bullet (level : Nat) (text : String)
  | table (rows : List (List String))
deriving Repr, DecidableEq

/-- The visible text a node carries (tables carry their cells
separately). -/
def docNodeText : DocNode → String
  | .title t => t
  | .heading1 t => t
  | .heading2 t => t
  | .heading3 t => t
  | .para t => t
  | .bullet _ t => t
  | .table _ => ""

/-! Optional-chain accessors used by both renderings. -/

def scoresGQ (s : Option Scores) : Option GeneralQualifications :=
  s.bind (fun x => x.general_qualifications)

def scoresAd (s : Option Scores) : Option AdequacyForAssignment :=
  s.bind (fun x => x.adequacy_for_assignment)

def scoresSS (s : Option Scores) : Option SpecificSkillsCompetencies :=
  s.bind (fun x => x.specific_skills_competencies)

def scoresTotal (s : Option Scores) : Option Int := s.bind (fun x => x.total_score)

def gqEducation (s : Option Scores) : Option Int := (scoresGQ s).bind (fun g => g.education)

def gqYears (s : Option Scores) : Option Int := (scoresGQ s).bind (fun g => g.years_of_experience)

def adRelevant (s : Option Scores) : Option Int :=
  (scoresAd s).bind (fun a => a.relevant_project_experience)

def adDonor (s : Option Scores) : Option Int := (scoresAd s).bind (fun a => a.donor_experience)

def adRegional (s : Option Scores) : Option Int := (scoresAd s).bind (fun a => a.regional_experience)

def ssTechnical (s : Option Scores) : Option Int := (scoresSS s).bind (fun x => x.technical_skills)

def ssLanguage (s : Option Scores) : Option Int := (scoresSS s).bind (fun x => x.language_proficiency)

def ssCertifications (s : Option Scores) : Option Int := (scoresSS s).bind (fun x => x.certifications)

def sjStrengths (s : Option SummaryJustification) : Option String :=
  s.bind (fun x => x.key_strengths)

def sjWeaknesses (s : Option SummaryJustification) : Option String :=
  s.bind (fun x => x.key_weaknesses)

def frBest (fr : Option FinalRecommendation) : Option String :=
  fr.bind (fun x => x.best_candidate)

def frDecision (fr : Option FinalRecommendation) : Option String :=
  fr.bind (fun x => x.final_decision)

def frJust (fr : Option FinalRecommendation) : Option Justification :=
  fr.bind (fun x => x.justification)

/-- `justification?.detailed_explanation` (a string justification has no
such property, hence `undefined`). -/
def jDetailedExplanation : Option Justification → Option String
  | some (Justification.jobj de _ _) => de
  | _ => none

def jWhyHe : Option Justification → Option String
  | some (Justification.jobj _ wh _) => wh
  | _ => none

def jWhyNotOthers : Option Justification → Option (List WhyNotOther)
  | some (Justification.jobj _ _ wno) => wno
  | _ => none

/-- Evaluation-criteria nodes of the export (lines 249-264). -/
def docxCriteriaNodes (crit : Option (List CriterionEntry)) : List DocNode :=
  (mapCriteria crit).flatMap (fun cat =>
    DocNode.heading2 (cat.category ++ " - " ++ cat.weight)
      :: cat.subitems.map (fun s => DocNode.bullet 0 (s.name ++ ": " ++ toString s.weight ++ "%")))

/-- One candidate block of the export (lines 269-344), for a candidate
whose `detailed_evaluation` is present. -/
def docxCandidateNodes (c : Candidate) (ev : List DetailedEvaluation) : List DocNode :=
  [ DocNode.heading2 (jsOrStr c.candidate_name "Unnamed Candidate"),
    DocNode.para ("Recommendation: " ++ jsOrStr c.recommendation "Not Evaluated"),
    DocNode.para ("Total Score: " ++ fmtScore (scoresTotal c.scores)),
    DocNode.para ("Strengths: " ++ jsOrStr (sjStrengths c.summary_justification) "None provided."),
    DocNode.para ("Weaknesses: " ++ jsOrStr (sjWeaknesses c.summary_justification) "None provided."),
    DocNode.heading3 "Scores",
    DocNode.bullet 0 "General Qualifications",
    DocNode.bullet 1 ("Education: " ++ fmtScore (gqEducation c.scores)),
    DocNode.bullet 1 ("Years of Experience: " ++ fmtScore (gqYears c.scores)),
    DocNode.bullet 0 "Adequacy for the Assignment",
    DocNode.bullet 1 ("Relevant Project Experience: " ++ fmtScore (adRelevant c.scores)),
    DocNode.bullet 1 ("Donor Experience: " ++ fmtScore (adDonor c.scores)),
    DocNode.bullet 1 ("Regional Experience: " ++ fmtScore (adRegional c.scores)),
    DocNode.bullet 0 "Specific Skills & Competencies",
    DocNode.bullet 1 ("Technical Skills: " ++ fmtScore (ssTechnical c.scores)),
    DocNode.bullet 1 ("Language Proficiency: " ++ fmtScore (ssLanguage c.scores)),
    DocNode.bullet 1 ("Certifications: " ++ fmtScore (ssCertifications c.scores)),
    DocNode.heading3 "Detailed Evaluation" ]
  ++ ev.map (fun it => DocNode.bullet 0
      (tmplStr it.criterion ++ ": Score " ++ fmtScore it.score ++ " (Weight: "
        ++ tmplInt it.weight ++ "%) - Justification: "
        ++ jsOrStr it.justification "None provided."))

/-- The ranking table of the export (lines 349-377): header row
`Candidate Name / Total Score / Rank`, then the rank-sorted rows. -/
def docxRankingRows (sorted : List ComparisonMatrix) : List (List String) :=
  ["Candidate Name", "Total Score", "Rank"] ::
  sorted.map (fun m =>
    [jsOrStr m.candidate_name "Unnamed Candidate", fmtScore m.total_score, toString m.rank])

/-- The justification block of the export (lines 388-428): branches on
`typeof justification === "string"`.  NOTE: the structured branch has
no empty-state line for an empty `why_not_others`. -/
def docxJustificationNodes (fr : Option FinalRecommendation) : List DocNode :=
  match frJust fr with
  | some (Justification.jstr s) =>
    [ DocNode.heading2 "Justification",
      DocNode.para (jsOrStr (some s) "No justification provided.") ]
  | j =>
    [ DocNode.heading2 "Detailed Explanation",
      DocNode.para (jsOrStr (jDetailedExplanation j) "No detailed explanation provided."),
      DocNode.heading2 "Why Recommended Candidate",
      DocNode.para (jsOrStr (jWhyHe j) "No reason provided for recommended candidate."),
      DocNode.heading2 "Why Not Other Candidates" ]
    ++ ((jWhyNotOthers j).getD []).flatMap (fun o =>
      [ DocNode.bullet 0 ("Candidate: " ++ jsOrStr o.candidate_name "Unnamed Candidate"),
        DocNode.bullet 1 ("Reason: " ++ jsOrStr o.reason "No reason provided.") ])

/-- The CV-comparison table of the export (lines 433-460): header
`Candidate Name` + one column per raw criterion; one row per candidate
in original order, cells `fulfillment[crit] || "N/A"`. -/
def docxCvRows (allCrit : List String) (cevs : List (Candidate × List DetailedEvaluation)) :
    List (List String) :=
  ("Candidate Name" :: allCrit) ::
  cevs.map (fun ce =>
    jsOrStr ce.1.candidate_name "Unnamed Candidate" ::
    allCrit.map (fun crit =>
      jsOrStr (objGet (getFulfillmentForCandidate allCrit ce.2) crit) "N/A"))

/-- Pair each candidate with its `detailed_evaluation` array; `none`
models the `TypeError` thrown by
`candidate.detailed_evaluation.find(...)` / `.map(...)` when the array
is absent (no optional chaining at lines 219 and 338). -/
def extractEvals : List Candidate → Option (List (Candidate × List DetailedEvaluation))
  | [] => some []
  | c :: rest =>
    match c.detailed_evaluation, extractEvals rest with
    | some ev, some tail => some ((c, ev) :: tail)
    | _, _ => none

/-- The full child list of the generated document (lines 232-464).
`none` models a thrown `TypeError`: `data?.criteria.map` (line 214, via
`allCriteria`) when `criteria` is absent, `reportData.candidates.flatMap`
(line 269) when `candidates` is absent, and
`candidate.detailed_evaluation.map/.find` (lines 338/219) when a
candidate's `detailed_evaluation` is absent. -/
def docxChildren (d : JsonData) : Option (List DocNode) :=
  match d.criteria with
  | none => none
  | some cs =>
  match d.candidates with
  | none => none
  | some cands =>
  match extractEvals cands with
  | none => none
  | some cevs =>
    some (
      [ DocNode.title "CV Comparison Report",
        DocNode.heading1 "Terms of Reference",
        DocNode.para (jsOrStr d.tor_text "No ToR text provided."),
        DocNode.heading1 "Evaluation Criteria" ]
      ++ docxCriteriaNodes (some cs)
      ++ [ DocNode.heading1 "Candidates" ]
      ++ cevs.flatMap (fun ce => docxCandidateNodes ce.1 ce.2)
      ++ [ DocNode.heading1 "Comparison Ranking",
           DocNode.table (docxRankingRows (sortedMatrixOf d.comparison_matrix)),
           DocNode.heading1 "Final Recommendation",
           DocNode.para ("Best Candidate: " ++ jsOrStr (frBest d.final_recommendation) "None"),
           DocNode.para ("Decision: " ++ jsOrStr (frDecision d.final_recommendation) "Not Evaluated") ]
      ++ docxJustificationNodes d.final_recommendation
      ++ [ DocNode.heading1 "CV Comparison Table",
           DocNode.table (docxCvRows (allCriteriaNames cs) cevs) ])

/-! ## Dual Renderer — the interactive UI rendering of the same result
(the results JSX, lines 653-1021), as an abstract node tree. -/

inductive UiNode where
  | sectionHeader (text : String)
  | textBlock (text : String)
  | catHeader (text : String)
  | subitemRow (label : String) (value : String)
  | candName (text : String)
  | badge (text : String)
  | table (rows : List (List String))
deriving Repr, DecidableEq

/-- Evaluation-criteria hierarchy of the UI (lines 687-709): the 3
normalized categories plus the synthetic `Total Score - 100%` leaf. -/
def uiCriteriaNodes (crit : Option (List CriterionEntry)) : List UiNode :=
  ((mapCriteria crit).flatMap (fun cat =>
    UiNode.catHeader (cat.category ++ " - " ++ cat.weight)
      :: cat.subitems.map (fun s => UiNode.subitemRow s.name (toString s.weight ++ "%"))))
  ++ [UiNode.catHeader "Total Score - 100%"]

/-- One candidate card of the UI (lines 721-880).  Note the UI labels
the last sub-score `Certification` (line 823) where the export says
`Certifications`, and appends the approximation disclaimer line. -/
def uiCandidateNodes (c : Candidate) (ev : List DetailedEvaluation) : List UiNode :=
  [ UiNode.candName (jsOrStr c.candidate_name "Unnamed Candidate"),
    UiNode.badge (jsOrStr c.recommendation "Not Evaluated"),
    UiNode.textBlock ("Strengths: " ++ jsOrStr (sjStrengths c.summary_justification) "None provided."),
    UiNode.textBlock ("Weaknesses: " ++ jsOrStr (sjWeaknesses c.summary_justification) "None provided."),
    UiNode.catHeader "General Qualifications - 20%",
    UiNode.subitemRow "Education" (fmtScore (gqEducation c.scores)),
    UiNode.subitemRow "Years of Experience" (fmtScore (gqYears c.scores)),
    UiNode.catHeader "Adequacy for the Assignment - 50%",
    UiNode.subitemRow "Relevant Project Experience" (fmtScore (adRelevant c.scores)),
    UiNode.subitemRow "Donor Experience (WB, ADB, etc.)" (fmtScore (adDonor c.scores)),
    UiNode.subitemRow "Regional Experience" (fmtScore (adRegional c.scores)),
    UiNode.catHeader "Specific Skills & Competencies - 30%",
    UiNode.subitemRow "Technical Skills" (fmtScore (ssTechnical c.scores)),
    UiNode.subitemRow "Language Proficiency" (fmtScore (ssLanguage c.scores)),
    UiNode.subitemRow "Certification" (fmtScore (ssCertifications c.scores)),
    UiNode.catHeader "Total Score - 100%",
    UiNode.subitemRow "Total" (fmtScore (scoresTotal c.scores)),
    UiNode.textBlock "(This score is approximate and can fluctuate by plus or minus 5)" ]
  ++ ev.flatMap (fun it =>
      [ UiNode.textBlock ("Criterion: " ++ jsOrStr it.criterion "N/A"),
        UiNode.textBlock ("Weight: "
          ++ (match it.weight with
              | some w => toString w ++ "%"
              | none => "N/A")
          ++ " | Score: "
          ++ (match it.score with
              | some v => toFixed2 v
              | none => "N/A")),
        UiNode.textBlock ("Justification: " ++ jsOrStr it.justification "None provided.") ])

/-- The ranking table of the UI (lines 892-918): header row
`Name / Rank` only (no total-score column), then the rank-sorted rows. -/
def uiRankingRows (sorted : List ComparisonMatrix) : List (List String) :=
  ["Name", "Rank"] ::
  sorted.map (fun m => [jsOrStr m.candidate_name "Unnamed Candidate", toString m.rank])

/-- The justification block of the UI (lines 936-985): branches on
`typeof justification === "string"`; the structured branch renders each
`why_not_others` pair and, when the list is absent or empty, the
empty-state line `No other candidates evaluated.`. -/
def uiJustificationNodes (fr : Option FinalRecommendation) : List UiNode :=
  match frJust fr with
  | some (Justification.jstr s) =>
    [ UiNode.catHeader "Justification",
      UiNode.textBlock (jsOrStr (some s) "No justification provided.") ]
  | j =>
    [ UiNode.catHeader "Detailed Explanation",
      UiNode.textBlock (jsOrStr (jDetailedExplanation j) "No detailed explanation provided."),
      UiNode.catHeader "Why Recommended Candidate",
      UiNode.textBlock (jsOrStr (jWhyHe j) "No reason provided for recommended candidate."),
      UiNode.catHeader "Why Not Other Candidates" ]
    ++ ((jWhyNotOthers j).getD []).flatMap (fun o =>
      [ UiNode.textBlock ("Candidate: " ++ jsOrStr o.candidate_name "Unnamed Candidate"),
        UiNode.textBlock ("Reason: " ++ jsOrStr o.reason "No reason provided.") ])
    ++ (match jWhyNotOthers j with
        | none => [UiNode.textBlock "No other candidates evaluated."]
        | some l => if l.length == 0 then [UiNode.textBlock "No other candidates evaluated."] else [])

/-- The CV-comparison table of the UI (lines 997-1019): same header and
rows as the export, but cells are `{fulfillment[crit]}` (JSX renders
`undefined` as the empty string, without the `|| "N/A"`). -/
def uiCvRows (allCrit : List String) (cevs : List (Candidate × List DetailedEvaluation)) :
    List (List String) :=
  ("Candidate Name" :: allCrit) ::
  cevs.map (fun ce =>
    jsOrStr ce.1.candidate_name "Unnamed Candidate" ::
    allCrit.map (fun crit =>
      (objGet (getFulfillmentForCandidate allCrit ce.2) crit).getD ""))

/-- The full results rendering of the UI (lines 653-1021).  `none`
models a thrown `TypeError`: `data?.criteria.map` (line 214) when
`criteria` is absent, and `candidate.detailed_evaluation.find`
(line 219, reached from the CV-comparison table at line 1008) when a
candidate's `detailed_evaluation` is absent.  Unlike the export, absent
`candidates` is guarded here (`data.candidates || []`, lines 721 and
1007). -/
def uiResults (d : JsonData) : Option (List UiNode) :=
  match d.criteria with
  | none => none
  | some cs =>
  match extractEvals ((d.candidates).getD []) with
  | none => none
  | some cevs =>
    some (
      [ UiNode.sectionHeader "Terms of Reference",
        UiNode.textBlock (jsOrStr d.tor_text "No ToR text provided."),
        UiNode.sectionHeader "Evaluation Criteria" ]
      ++ uiCriteriaNodes (some cs)
      ++ [ UiNode.sectionHeader "Candidates" ]
      ++ cevs.flatMap (fun ce => uiCandidateNodes ce.1 ce.2)
      ++ [ UiNode.sectionHeader "Comparison Ranking",
           UiNode.table (uiRankingRows (sortedMatrixOf d.comparison_matrix)),
           UiNode.sectionHeader "Final Recommendation",
           UiNode.textBlock ("Best Candidate: " ++ jsOrStr (frBest d.final_recommendation) "None"),
           UiNode.textBlock ("Decision: " ++ jsOrStr (frDecision d.final_recommendation) "Not Evaluated") ]
      ++ uiJustificationNodes d.final_recommendation
      ++ [ UiNode.sectionHeader "CV Comparison Table",
           UiNode.table (uiCvRows (allCriteriaNames cs) cevs) ])

/-! ## Projections used to compare the two renderings -/

def docH1Titles (ns : List DocNode) : List String :=
  ns.filterMap (fun n => match n with | DocNode.heading1 t => some t | _ => none)

def docTables (ns : List DocNode) : List (List (List String)) :=
  ns.filterMap (fun n => match n with | DocNode.table r => some r | _ => none)

def uiSectionTitles (ns : List UiNode) : List String :=
  ns.filterMap (fun n => match n with | UiNode.sectionHeader t => some t | _ => none)

def uiTables (ns : List UiNode) : List (List (List String)) :=
  ns.filterMap (fun n => match n with | UiNode.table r => some r | _ => none)

def uiNodeText : UiNode → String
  | .sectionHeader t => t
  | .textBlock t => t
  | .catHeader t => t
  | .subitemRow a b => a ++ b
  | .candName t => t
  | .badge t => t
  | .table _ => ""

/-! ## Criteria Normalizer claims (C5, C10) -/

lemma mapCriteriaSubitems_eq (cs : List CriterionEntry) :
    mapCriteriaSubitems cs =
      knownSubcriteria.map (fun q => Subitem.mk q.1 (lookupWeight cs q.1 q.2)) := rfl

lemma lookupWeight_of_falsy (cs : List CriterionEntry) (name : String) (dflt : Int)
    (h0 : foundWeight cs name = some 0 ∨ foundWeight cs name = none) :
    lookupWeight cs name dflt = dflt := by
  rcases h0 with h | h <;> simp [lookupWeight, jsOrNum, h]

/-- C5 (amended): for every criteria list the normalizer returns exactly
3 categories with 2, 3 and 3 subitems; the subitem weights are given by
the lookup-with-fallback `lookupWeight`, which presents the matching
entry's weight only when that weight is present and non-zero, and the
documented default otherwise. -/
theorem mapCriteria_shape_and_weights (cs : List CriterionEntry) :
    (mapCriteria (some cs)).map (fun c => (c.category, c.subitems.length)) =
      [("General Qualifications", 2), ("Adequacy for the Assignment", 3),
       ("Specific Skills & Competencies", 3)] ∧
    mapCriteriaSubitems cs =
      knownSubcriteria.map (fun q => Subitem.mk q.1 (lookupWeight cs q.1 q.2)) ∧
    (∀ name dflt w, foundWeight cs name = some w → w ≠ 0 →
      lookupWeight cs name dflt = w) ∧
    (∀ name dflt, foundWeight cs name = some 0 ∨ foundWeight cs name = none →
      lookupWeight cs name dflt = dflt) := by
  refine ⟨rfl, mapCriteriaSubitems_eq cs, ?_, ?_⟩
  · intro name dflt w hw hw0
    simp [lookupWeight, jsOrNum, hw, hw0]
  · intro name dflt h0
    exact lookupWeight_of_falsy cs name dflt h0

/-- C5 witness: the spec's own end-to-end example — criteria
`[{criterion: "Education", weight: 12}]` yields Education weight 12. -/
theorem mapCriteria_shape_and_weights_witness :
    foundWeight [CriterionEntry.mk "Education" (some 12)] "Education" = some 12 ∧
    (12 : Int) ≠ 0 ∧
    lookupWeight [CriterionEntry.mk "Education" (some 12)] "Education" 10 = 12 :=
  ⟨by decide, by decide,
    (mapCriteria_shape_and_weights [CriterionEntry.mk "Education" (some 12)]).2.2.1
      "Education" 10 12 (by decide) (by decide)⟩

/-- C5 counterexample: with `criteria = [{criterion: "Education",
weight: 0}]` a matching entry exists, yet the normalizer presents the
default 10, not the matching entry's weight 0 — refuting the claim that
the subitem weight is the matching entry's weight whenever one exists
by exact name match. -/
theorem mapCriteria_supplied_zero_weight_ignored :
    findCriterion [CriterionEntry.mk "Education" (some 0)] "Education"
        = some (CriterionEntry.mk "Education" (some 0)) ∧
    (mapCriteriaSubitems [CriterionEntry.mk "Education" (some 0)]).find?
        (fun s => s.name == "Education") = some (Subitem.mk "Education" 10) ∧
    (mapCriteriaSubitems [CriterionEntry.mk "Education" (some 0)]).find?
        (fun s => s.name == "Education") ≠ some (Subitem.mk "Education" 0) := by
  refine ⟨rfl, rfl, by decide⟩

/-- C10: a criterion entry matching one of the 8 known sub-criterion
names whose weight is falsy (0 here; absent/null weights behave the
same) is presented with the fixed default weight, because
`find(...)?.weight || dflt` treats 0 like an absent criterion. -/
theorem falsy_weight_presents_default (cs : List CriterionEntry) (p : String × Int)
    (hp : p ∈ knownSubcriteria)
    (hmatch : (findCriterion cs p.1).isSome = true)
    (h0 : foundWeight cs p.1 = some 0 ∨ foundWeight cs p.1 = none) :
    (mapCriteriaSubitems cs).find? (fun s => s.name == p.1) = some (Subitem.mk p.1 p.2) := by
  have hw : ∀ dflt : Int, lookupWeight cs p.1 dflt = dflt := fun dflt =>
    lookupWeight_of_falsy cs p.1 dflt h0
  rw [mapCriteriaSubitems_eq]
  simp only [knownSubcriteria, List.mem_cons, List.not_mem_nil, or_false] at hp
  rcases hp with rfl | rfl | rfl | rfl | rfl | rfl | rfl | rfl <;>
    simp_all [knownSubcriteria]

/-- C10 witness: `Technical Skills` supplied with weight 0 is presented
with the default 15. -/
theorem falsy_weight_presents_default_witness :
    ("Technical Skills", (15 : Int)) ∈ knownSubcriteria ∧
    (findCriterion [CriterionEntry.mk "Technical Skills" (some 0)] "Technical Skills").isSome = true ∧
    foundWeight [CriterionEntry.mk "Technical Skills" (some 0)] "Technical Skills" = some 0 ∧
    (mapCriteriaSubitems [CriterionEntry.mk "Technical Skills" (some 0)]).find?
        (fun s => s.name == "Technical Skills") = some (Subitem.mk "Technical Skills" 15) :=
  ⟨by decide, by decide, by decide,
    falsy_weight_presents_default [CriterionEntry.mk "Technical Skills" (some 0)]
      ("Technical Skills", 15) (by decide) (by decide) (Or.inl (by decide))⟩

/-! ## Fulfillment Matrix suppression claims (C6, C7) -/

/-- C6: if the first matching detailed-evaluation entry has score 0, the
fulfillment value is the sentinel `No work here`, even when the
justification is a present, non-empty, non-sentinel string. -/
theorem zero_score_suppresses_justification (ev : List DetailedEvaluation) (crit : String)
    (it : DetailedEvaluation)
    (hfind : ev.find? (fun de => de.criterion == some crit) = some it)
    (hscore : it.score = some 0) :
    fulfillmentValue ev crit = "No work here" := by
  unfold fulfillmentValue
  rw [hfind]
  simp [jsGtZero, hscore]

/-- C6 witness: score 0 with justification "Led three donor projects"
still yields the sentinel. -/
theorem zero_score_suppresses_justification_witness :
    [DetailedEvaluation.mk (some "Education") (some 10) (some 0) (some "Led three donor projects")].find?
        (fun de => de.criterion == some "Education")
      = some (DetailedEvaluation.mk (some "Education") (some 10) (some 0) (some "Led three donor projects")) ∧
    fulfillmentValue
        [DetailedEvaluation.mk (some "Education") (some 10) (some 0) (some "Led three donor projects")]
        "Education" = "No work here" :=
  ⟨by decide,
    zero_score_suppresses_justification
      [DetailedEvaluation.mk (some "Education") (some 10) (some 0) (some "Led three donor projects")]
      "Education"
      (DetailedEvaluation.mk (some "Education") (some 10) (some 0) (some "Led three donor projects"))
      (by decide) (by decide)⟩

/-- C7: if the first matching entry's justification is exactly
`No evidence in CV.`, the fulfillment value is the sentinel
`No work here` regardless of the entry's score. -/
theorem sentinel_justification_suppressed (ev : List DetailedEvaluation) (crit : String)
    (it : DetailedEvaluation)
    (hfind : ev.find? (fun de => de.criterion == some crit) = some it)
    (hj : it.justification = some "No evidence in CV.") :
    fulfillmentValue ev crit = "No work here" := by
  unfold fulfillmentValue
  rw [hfind]
  simp [hj]

/-- C7 witness: a positive score 9 with the sentinel justification still
yields `No work here`. -/
theorem sentinel_justification_suppressed_witness :
    [DetailedEvaluation.mk (some "Education") (some 10) (some 9) (some "No evidence in CV.")].find?
        (fun de => de.criterion == some "Education")
      = some (DetailedEvaluation.mk (some "Education") (some 10) (some 9) (some "No evidence in CV.")) ∧
    fulfillmentValue
        [DetailedEvaluation.mk (some "Education") (some 10) (some 9) (some "No evidence in CV.")]
        "Education" = "No work here" :=
  ⟨by decide,
    sentinel_justification_suppressed
      [DetailedEvaluation.mk (some "Education") (some 10) (some 9) (some "No evidence in CV.")]
      "Education"
      (DetailedEvaluation.mk (some "Education") (some 10) (some 9) (some "No evidence in CV."))
      (by decide) (by decide)⟩

/-! ## Fulfillment matrix totality (C1): JS-object lemmas -/

def keyCount (m : List (String × String)) (k : String) : Nat :=
  m.countP (fun p => p.1 == k)

/-- JS objects have at most one entry per key. -/
def NoDupKeys (m : List (String × String)) : Prop := ∀ k, keyCount m k ≤ 1

lemma find?_map_put (m : List (String × String)) (k v : String) :
    (m.map (fun p => if p.1 == k then (k, v) else p)).find? (fun p => p.1 == k)
      = if m.any (fun p => p.1 == k) then some (k, v) else none := by
  induction m with
  | nil => rfl
  | cons a m ih =>
    simp only [List.map_cons, List.any_cons]
    by_cases ha : a.1 = k
    · have hb : (a.1 == k) = true := beq_iff_eq.mpr ha
      rw [if_pos hb, List.find?_cons_of_pos]
      · simp [hb]
      · simp
    · have hb : (a.1 == k) = false := beq_eq_false_iff_ne.mpr ha
      rw [if_neg (by simp [hb]), List.find?_cons_of_neg, ih]
      · simp only [hb, Bool.false_or]
      · simp [hb]

lemma find?_append_key (m : List (String × String)) (k v : String)
    (h : m.any (fun p => p.1 == k) = false) :
    (m ++ [(k, v)]).find? (fun p => p.1 == k) = some (k, v) := by
  induction m with
  | nil =>
    rw [List.nil_append, List.find?_cons_of_pos]
    simp
  | cons a m ih =>
    rw [List.any_cons, Bool.or_eq_false_iff] at h
    rw [List.cons_append, List.find?_cons_of_neg, ih h.2]
    simp [h.1]

lemma objGet_objSet_self (m : List (String × String)) (k v : String) :
    objGet (objSet m k v) k = some v := by
  unfold objGet objSet
  by_cases h : m.any (fun p => p.1 == k) = true
  · rw [if_pos h, find?_map_put, if_pos h]
    rfl
  · rw [Bool.not_eq_true] at h
    rw [if_neg (by simp [h]), find?_append_key m k v h]
    rfl

lemma find?_map_put_other (m : List (String × String)) (k v k' : String) (hk : k' ≠ k) :
    (m.map (fun p => if p.1 == k then (k, v) else p)).find? (fun p => p.1 == k')
      = m.find? (fun p => p.1 == k') := by
  induction m with
  | nil => rfl
  | cons a m ih =>
    simp only [List.map_cons]
    by_cases ha : a.1 = k
    · have hb : (a.1 == k) = true := beq_iff_eq.mpr ha
      have h2 : ¬ a.1 = k' := fun e => hk (e.symm.trans ha)
      rw [if_pos hb, List.find?_cons_of_neg, List.find?_cons_of_neg, ih]
      · simp [h2]
      · simp [Ne.symm hk]
    · have hb : (a.1 == k) = false := beq_eq_false_iff_ne.mpr ha
      rw [if_neg (by simp [hb])]
      by_cases h2 : a.1 = k'
      · rw [List.find?_cons_of_pos, List.find?_cons_of_pos]
        · simp [h2]
        · simp [h2]
      · rw [List.find?_cons_of_neg, List.find?_cons_of_neg, ih]
        · simp [h2]
        · simp [h2]

lemma objGet_objSet_other (m : List (String × String)) (k v k' : String) (hk : k' ≠ k) :
    objGet (objSet m k v) k' = objGet m k' := by
  unfold objGet objSet
  by_cases h : m.any (fun p => p.1 == k) = true
  · rw [if_pos h, find?_map_put_other m k v k' hk]
  · rw [Bool.not_eq_true] at h
    rw [if_neg (by simp [h]), List.find?_append, List.find?_cons_of_neg]
    · simp
    · simp [Ne.symm hk]

lemma keyCount_map_put (m : List (String × String)) (k v : String) :
    keyCount (m.map (fun p => if p.1 == k then (k, v) else p)) k = keyCount m k := by
  unfold keyCount
  induction m with
  | nil => rfl
  | cons a m ih =>
    simp only [List.map_cons]
    by_cases ha : a.1 = k
    · have hb : (a.1 == k) = true := beq_iff_eq.mpr ha
      rw [if_pos hb, List.countP_cons_of_pos, List.countP_cons_of_pos, ih]
      · exact hb
      · simp
    · have hb : (a.1 == k) = false := beq_eq_false_iff_ne.mpr ha
      rw [if_neg (by simp [hb]), List.countP_cons_of_neg, List.countP_cons_of_neg, ih]
      · simp [hb]
      · simp [hb]

lemma keyCount_pos_of_any (m : List (String × String)) (k : String)
    (h : m.any (fun p => p.1 == k) = true) : 0 < keyCount m k := by
  unfold keyCount
  rw [List.countP_pos_iff]
  simpa [List.any_eq_true] using h

lemma keyCount_zero_of_not_any (m : List (String × String)) (k : String)
    (h : m.any (fun p => p.1 == k) = false) : keyCount m k = 0 := by
  unfold keyCount
  induction m with
  | nil => rfl
  | cons a m ih =>
    rw [List.any_cons, Bool.or_eq_false_iff] at h
    rw [List.countP_cons_of_neg, ih h.2]
    simp [h.1]

lemma keyCount_objSet_self (m : List (String × String)) (k v : String)
    (h : keyCount m k ≤ 1) : keyCount (objSet m k v) k = 1 := by
  unfold objSet
  by_cases hany : m.any (fun p => p.1 == k) = true
  · rw [if_pos hany, keyCount_map_put]
    exact le_antisymm h (keyCount_pos_of_any m k hany)
  · rw [Bool.not_eq_true] at hany
    rw [if_neg (by simp [hany])]
    unfold keyCount
    rw [List.countP_append]
    have h0 : keyCount m k = 0 := keyCount_zero_of_not_any m k hany
    unfold keyCount at h0
    rw [h0]
    simp

lemma keyCount_map_put_other (m : List (String × String)) (k v k' : String) (hk : k' ≠ k) :
    keyCount (m.map (fun p => if p.1 == k then (k, v) else p)) k' = keyCount m k' := by
  unfold keyCount
  induction m with
  | nil => rfl
  | cons a m ih =>
    simp only [List.map_cons]
    by_cases ha : a.1 = k
    · have hb : (a.1 == k) = true := beq_iff_eq.mpr ha
      have h2 : ¬ a.1 = k' := fun e => hk (e.symm.trans ha)
      rw [if_pos hb, List.countP_cons_of_neg, List.countP_cons_of_neg, ih]
      · simp [h2]
      · simp [Ne.symm hk]
    · have hb : (a.1 == k) = false := beq_eq_false_iff_ne.mpr ha
      rw [if_neg (by simp [hb])]
      by_cases h2 : a.1 = k'
      · rw [List.countP_cons_of_pos, List.countP_cons_of_pos, ih]
        · simp [h2]
        · simp [h2]
      · rw [List.countP_cons_of_neg, List.countP_cons_of_neg, ih]
        · simp [h2]
        · simp [h2]

lemma keyCount_objSet_other (m : List (String × String)) (k v k' : String) (hk : k' ≠ k) :
    keyCount (objSet m k v) k' = keyCount m k' := by
  unfold objSet
  by_cases hany : m.any (fun p => p.1 == k) = true
  · rw [if_pos hany, keyCount_map_put_other m k v k' hk]
  · rw [Bool.not_eq_true] at hany
    rw [if_neg (by simp [hany])]
    unfold keyCount
    rw [List.countP_append, List.countP_cons_of_neg]
    · simp
    · simp [Ne.symm hk]

lemma noDupKeys_objSet (m : List (String × String)) (k v : String)
    (h : NoDupKeys m) : NoDupKeys (objSet m k v) := by
  intro k'
  by_cases hk : k' = k
  · subst hk
    rw [keyCount_objSet_self m k' v (h k')]
  · rw [keyCount_objSet_other m k v k' hk]
    exact h k'

lemma fold_objGet_not_mem (ev : List DetailedEvaluation) :
    ∀ (l : List String) (m0 : List (String × String)) (crit : String), crit ∉ l →
      objGet (l.foldl (fun m c => objSet m c (fulfillmentValue ev c)) m0) crit = objGet m0 crit
  | [], _, _, _ => rfl
  | a :: l, m0, crit, h => by
    rw [List.foldl_cons,
      fold_objGet_not_mem ev l _ crit (fun hm => h (List.mem_cons_of_mem a hm)),
      objGet_objSet_other _ _ _ _ (fun e => h (by rw [e]; exact List.mem_cons_self a l))]

lemma fold_keyCount_not_mem (ev : List DetailedEvaluation) :
    ∀ (l : List String) (m0 : List (String × String)) (crit : String), crit ∉ l →
      keyCount (l.foldl (fun m c => objSet m c (fulfillmentValue ev c)) m0) crit
        = keyCount m0 crit
  | [], _, _, _ => rfl
  | a :: l, m0, crit, h => by
    rw [List.foldl_cons,
      fold_keyCount_not_mem ev l _ crit (fun hm => h (List.mem_cons_of_mem a hm)),
      keyCount_objSet_other _ _ _ _ (fun e => h (by rw [e]; exact List.mem_cons_self a l))]

lemma fold_objGet_mem (ev : List DetailedEvaluation) :
    ∀ (l : List String) (m0 : List (String × String)) (crit : String), crit ∈ l →
      objGet (l.foldl (fun m c => objSet m c (fulfillmentValue ev c)) m0) crit
        = some (fulfillmentValue ev crit)
  | a :: l, m0, crit, h => by
    rw [List.foldl_cons]
    by_cases hl : crit ∈ l
    · exact fold_objGet_mem ev l _ crit hl
    · have hca : crit = a := (List.mem_cons.mp h).resolve_right hl
      subst hca
      rw [fold_objGet_not_mem ev l _ crit hl, objGet_objSet_self]

lemma fold_keyCount_mem (ev : List DetailedEvaluation) :
    ∀ (l : List String) (m0 : List (String × String)) (crit : String), crit ∈ l →
      NoDupKeys m0 →
      keyCount (l.foldl (fun m c => objSet m c (fulfillmentValue ev c)) m0) crit = 1
  | a :: l, m0, crit, h, hd => by
    rw [List.foldl_cons]
    by_cases hl : crit ∈ l
    · exact fold_keyCount_mem ev l _ crit hl (noDupKeys_objSet _ _ _ hd)
    · have hca : crit = a := (List.mem_cons.mp h).resolve_right hl
      subst hca
      rw [fold_keyCount_not_mem ev l _ crit hl, keyCount_objSet_self _ _ _ (hd crit)]

lemma noDupKeys_nil : NoDupKeys [] := fun _ => Nat.le_of_lt Nat.one_pos

lemma fulfillmentValue_find_none (ev : List DetailedEvaluation) (crit : String)
    (hf : ev.find? (fun de => de.criterion == some crit) = none) :
    fulfillmentValue ev crit = "No work here" := by
  unfold fulfillmentValue
  rw [hf]

lemma fulfillmentValue_find_some (ev : List DetailedEvaluation) (crit : String)
    (it : DetailedEvaluation)
    (hf : ev.find? (fun de => de.criterion == some crit) = some it) :
    fulfillmentValue ev crit =
      if (jsGtZero it.score && jsTruthyStr it.justification
          && !(it.justification == some "No evidence in CV.")) = true
      then it.justification.getD "" else "No work here" := by
  unfold fulfillmentValue
  rw [hf]

lemma fulfillmentValue_ne_empty (ev : List DetailedEvaluation) (crit : String) :
    fulfillmentValue ev crit ≠ "" := by
  cases hf : ev.find? (fun de => de.criterion == some crit) with
  | none => rw [fulfillmentValue_find_none ev crit hf]; simp
  | some it =>
    rw [fulfillmentValue_find_some ev crit it hf]
    by_cases hc : (jsGtZero it.score && jsTruthyStr it.justification
        && !(it.justification == some "No evidence in CV.")) = true
    · rw [if_pos hc]
      have hc' := hc
      rw [Bool.and_eq_true, Bool.and_eq_true] at hc'
      have ht : jsTruthyStr it.justification = true := hc'.1.2
      cases hj : it.justification with
      | none => rw [hj] at ht; exact absurd ht (by simp [jsTruthyStr])
      | some s =>
        rw [hj] at ht
        have hs : ¬ s = "" := by simpa [jsTruthyStr] using ht
        simpa using hs
    · rw [if_neg hc]
      simp

lemma fulfillmentValue_cases (ev : List DetailedEvaluation) (crit : String) :
    fulfillmentValue ev crit = "No work here" ∨
      ∃ it, ev.find? (fun de => de.criterion == some crit) = some it ∧
        it.justification = some (fulfillmentValue ev crit) := by
  cases hf : ev.find? (fun de => de.criterion == some crit) with
  | none => exact Or.inl (fulfillmentValue_find_none ev crit hf)
  | some it =>
    by_cases hc : (jsGtZero it.score && jsTruthyStr it.justification
        && !(it.justification == some "No evidence in CV.")) = true
    · refine Or.inr ⟨it, rfl, ?_⟩
      have hc' := hc
      rw [Bool.and_eq_true, Bool.and_eq_true] at hc'
      have ht : jsTruthyStr it.justification = true := hc'.1.2
      rw [fulfillmentValue_find_some ev crit it hf, if_pos hc]
      cases hj : it.justification with
      | none => rw [hj] at ht; exact absurd ht (by simp [jsTruthyStr])
      | some s => rfl
    · exact Or.inl ((fulfillmentValue_find_some ev crit it hf).trans (if_neg hc))

/-- C1: for every criterion name in `allCriteria`, the fulfillment map
has exactly one entry for that name; its value is defined (never
`undefined`), equals either the justification of the first matching
detailed-evaluation entry or the sentinel `No work here`, and is never
the empty string. -/
theorem fulfillment_map_total (allCrit : List String) (ev : List DetailedEvaluation)
    (crit : String) (h : crit ∈ allCrit) :
    keyCount (getFulfillmentForCandidate allCrit ev) crit = 1 ∧
    objGet (getFulfillmentForCandidate allCrit ev) crit = some (fulfillmentValue ev crit) ∧
    (fulfillmentValue ev crit = "No work here" ∨
      ∃ it, ev.find? (fun de => de.criterion == some crit) = some it ∧
        it.justification = some (fulfillmentValue ev crit)) ∧
    fulfillmentValue ev crit ≠ "" := by
  refine ⟨?_, ?_, fulfillmentValue_cases ev crit, fulfillmentValue_ne_empty ev crit⟩
  · exact fold_keyCount_mem ev allCrit [] crit h noDupKeys_nil
  · exact fold_objGet_mem ev allCrit [] crit h

/-- C1 witness: the spec's end-to-end example (Education, score 8,
justification "Has MSc") yields the single entry "Has MSc". -/
theorem fulfillment_map_total_witness :
    ("Education" ∈ ["Education"]) ∧
    objGet (getFulfillmentForCandidate ["Education"]
        [DetailedEvaluation.mk (some "Education") (some 12) (some 8) (some "Has MSc")])
        "Education" = some "Has MSc" :=
  ⟨by decide,
    (fulfillment_map_total ["Education"]
        [DetailedEvaluation.mk (some "Education") (some 12) (some 8) (some "Has MSc")]
        "Education" (by decide)).2.1.trans (by decide)⟩

/-! ## Ranking Sorter claims (C8): sortedness, stability, idempotence -/

lemma filter_orderedInsert (x : ComparisonMatrix) (l : List ComparisonMatrix) (k : Int) :
    (List.orderedInsert rankLe x l).filter (fun e => e.rank == k)
      = if (x.rank == k) = true then x :: l.filter (fun e => e.rank == k)
        else l.filter (fun e => e.rank == k) := by
  induction l with
  | nil =>
    by_cases hx : (x.rank == k) = true
    · simp [List.orderedInsert, List.filter_cons, hx]
    · simp [List.orderedInsert, List.filter_cons, hx]
  | cons y l ih =>
    rw [List.orderedInsert]
    by_cases hxy : rankLe x y
    · rw [if_pos hxy]
      by_cases hx : (x.rank == k) = true
      · simp [List.filter_cons, hx]
      · simp [List.filter_cons, hx]
    · rw [if_neg hxy]
      have hxy' : ¬ x.rank ≤ y.rank := hxy
      have hyx : y.rank < x.rank := lt_of_not_le hxy'
      by_cases hx : (x.rank == k) = true
      · have hxk : x.rank = k := beq_iff_eq.mp hx
        have hy : (y.rank == k) = false := beq_eq_false_iff_ne.mpr (by omega)
        rw [if_pos hx, List.filter_cons_of_neg (by simp [hy]),
          List.filter_cons_of_neg (by simp [hy]), ih, if_pos hx]
      · rw [if_neg hx]
        by_cases hy : (y.rank == k) = true
        · rw [List.filter_cons_of_pos (by simp [hy]),
            List.filter_cons_of_pos (by simp [hy]), ih, if_neg hx]
        · rw [List.filter_cons_of_neg (by simp [hy]),
            List.filter_cons_of_neg (by simp [hy]), ih, if_neg hx]

lemma rankSort_stable (l : List ComparisonMatrix) (k : Int) :
    (rankSort l).filter (fun e => e.rank == k) = l.filter (fun e => e.rank == k) := by
  unfold rankSort
  induction l with
  | nil => rfl
  | cons x l ih =>
    rw [List.insertionSort, filter_orderedInsert]
    by_cases hx : (x.rank == k) = true
    · rw [if_pos hx, ih, List.filter_cons_of_pos]
      exact hx
    · rw [if_neg hx, ih, List.filter_cons_of_neg]
      exact hx

/-- C8: the ranking sort is an ascending-by-rank permutation of the
comparison matrix; it is the identity on already-sorted input, it is
idempotent, and it is stable (for every rank value the subsequence of
entries with that rank is preserved, so ties keep their input order). -/
theorem sortedMatrix_sorted_stable_idem (l : List ComparisonMatrix) :
    (sortedMatrixOf (some l)).Sorted rankLe ∧
    List.Perm (sortedMatrixOf (some l)) l ∧
    (l.Sorted rankLe → sortedMatrixOf (some l) = l) ∧
    sortedMatrixOf (some (sortedMatrixOf (some l))) = sortedMatrixOf (some l) ∧
    (∀ k : Int, (sortedMatrixOf (some l)).filter (fun e => e.rank == k)
        = l.filter (fun e => e.rank == k)) := by
  refine ⟨List.sorted_insertionSort rankLe l, List.perm_insertionSort rankLe l,
    fun hs => hs.insertionSort_eq, ?_, fun k => rankSort_stable l k⟩
  exact (List.sorted_insertionSort rankLe l).insertionSort_eq

/-- C8 witness: the spec's example `[B(rank 2), A(rank 1)]` — the sorted
form `[A(rank 1), B(rank 2)]` is already sorted and is a fixed point. -/
theorem sortedMatrix_sorted_stable_idem_witness :
    List.Sorted rankLe
      [ComparisonMatrix.mk (some "A") (some 90) 1, ComparisonMatrix.mk (some "B") (some 80) 2] ∧
    sortedMatrixOf (some
      [ComparisonMatrix.mk (some "A") (some 90) 1, ComparisonMatrix.mk (some "B") (some 80) 2])
      = [ComparisonMatrix.mk (some "A") (some 90) 1, ComparisonMatrix.mk (some "B") (some 80) 2] :=
  ⟨by simp [rankLe, List.sorted_cons],
    (sortedMatrix_sorted_stable_idem
      [ComparisonMatrix.mk (some "A") (some 90) 1,
       ComparisonMatrix.mk (some "B") (some 80) 2]).2.2.1
      (by simp [rankLe, List.sorted_cons])⟩

/-! ## Frame property of the sort (C9) -/

lemma heapFind_map_put (as : List (Nat × List ComparisonMatrix)) (k : Nat)
    (v : List ComparisonMatrix) :
    (as.map (fun p => if p.1 == k then (k, v) else p)).find? (fun p => p.1 == k)
      = if as.any (fun p => p.1 == k) then some (k, v) else none := by
  induction as with
  | nil => rfl
  | cons a m ih =>
    simp only [List.map_cons, List.any_cons]
    by_cases ha : a.1 = k
    · have hb : (a.1 == k) = true := beq_iff_eq.mpr ha
      rw [if_pos hb, List.find?_cons_of_pos]
      · simp [hb]
      · simp
    · have hb : (a.1 == k) = false := beq_eq_false_iff_ne.mpr ha
      rw [if_neg (by simp [hb]), List.find?_cons_of_neg, ih]
      · simp only [hb, Bool.false_or]
      · simp [hb]

lemma heapFind_map_put_other (as : List (Nat × List ComparisonMatrix)) (k : Nat)
    (v : List ComparisonMatrix) (k' : Nat) (hk : k' ≠ k) :
    (as.map (fun p => if p.1 == k then (k, v) else p)).find? (fun p => p.1 == k')
      = as.find? (fun p => p.1 == k') := by
  induction as with
  | nil => rfl
  | cons a m ih =>
    simp only [List.map_cons]
    by_cases ha : a.1 = k
    · have hb : (a.1 == k) = true := beq_iff_eq.mpr ha
      have h2 : ¬ a.1 = k' := fun e => hk (e.symm.trans ha)
      rw [if_pos hb, List.find?_cons_of_neg, List.find?_cons_of_neg, ih]
      · simp [h2]
      · simp [Ne.symm hk]
    · have hb : (a.1 == k) = false := beq_eq_false_iff_ne.mpr ha
      rw [if_neg (by simp [hb])]
      by_cases h2 : a.1 = k'
      · rw [List.find?_cons_of_pos, List.find?_cons_of_pos]
        · simp [h2]
        · simp [h2]
      · rw [List.find?_cons_of_neg, List.find?_cons_of_neg, ih]
        · simp [h2]
        · simp [h2]

/-- C9: the ranking-sort computation
`[...data.comparison_matrix].sort(...)` does not mutate the received
array: in a well-formed heap, after spreading (allocating a copy) and
sorting the copy in place, the original reference still holds exactly
the received rows; the sorted result lives at a fresh, distinct
reference.  (All other engine operations — `mapCriteria`,
`getFulfillmentForCandidate`, the renderings — are built from `find`,
`map`, `forEach` and object/array literals, which read their inputs and
write only fresh values; they are modelled as pure functions above.) -/
theorem spread_sort_preserves_input (h : JsHeap) (r : Nat) (xs : List ComparisonMatrix)
    (hwf : JsHeap.wf h) (hr : h.get r = some xs) :
    (spreadSortByRank h r).1.get r = some xs ∧
    (spreadSortByRank h r).2 = some h.next ∧
    h.next ≠ r ∧
    (spreadSortByRank h r).1.get h.next = some (rankSort xs) := by
  obtain ⟨p0, hfind, hsnd⟩ : ∃ p0, h.arrs.find? (fun p => p.1 == r) = some p0 ∧ p0.2 = xs := by
    unfold JsHeap.get at hr
    cases hfind : h.arrs.find? (fun p => p.1 == r) with
    | none => rw [hfind] at hr; cases hr
    | some p0 =>
      rw [hfind] at hr
      exact ⟨p0, rfl, by simpa using hr⟩
  have hp1 : p0.1 = r := by simpa using List.find?_some hfind
  have hmem : p0 ∈ h.arrs := List.mem_of_find?_eq_some hfind
  have hlt : r < h.next := hp1 ▸ hwf p0 hmem
  have hner : h.next ≠ r := by omega
  unfold spreadSortByRank
  rw [hr]
  refine ⟨?_, rfl, hner, ?_⟩
  · show JsHeap.get (JsHeap.write (h.alloc xs).1 (h.alloc xs).2 (rankSort xs)) r = some xs
    unfold JsHeap.get JsHeap.write JsHeap.alloc
    rw [heapFind_map_put_other _ _ _ _ (show r ≠ h.next by omega), List.find?_append, hfind]
    simp [hsnd]
  · show JsHeap.get (JsHeap.write (h.alloc xs).1 (h.alloc xs).2 (rankSort xs)) h.next
      = some (rankSort xs)
    unfold JsHeap.get JsHeap.write JsHeap.alloc
    rw [heapFind_map_put]
    have hany : ((h.arrs ++ [(h.next, xs)]).any (fun p => p.1 == h.next)) = true := by
      simp
    rw [if_pos hany]
    rfl

/-- C9 witness: a concrete two-element heap — after the spread-sort the
original reference still holds `[B(rank 2), A(rank 1)]` and the copy
holds the sorted rows. -/
theorem spread_sort_preserves_input_witness :
    (JsHeap.mk
      [(0, [ComparisonMatrix.mk (some "B") (some 80) 2,
            ComparisonMatrix.mk (some "A") (some 90) 1])] 1).wf ∧
    (spreadSortByRank (JsHeap.mk
      [(0, [ComparisonMatrix.mk (some "B") (some 80) 2,
            ComparisonMatrix.mk (some "A") (some 90) 1])] 1) 0).1.get 0
      = some [ComparisonMatrix.mk (some "B") (some 80) 2,
              ComparisonMatrix.mk (some "A") (some 90) 1] :=
  ⟨by intro p hp; rcases List.mem_singleton.mp hp with rfl; decide,
    (spread_sort_preserves_input
      (JsHeap.mk [(0, [ComparisonMatrix.mk (some "B") (some 80) 2,
                       ComparisonMatrix.mk (some "A") (some 90) 1])] 1) 0
      [ComparisonMatrix.mk (some "B") (some 80) 2,
       ComparisonMatrix.mk (some "A") (some 90) 1]
      (by intro p hp; rcases List.mem_singleton.mp hp with rfl; decide) (by decide)).1⟩

/-! ## Missing-field robustness (C4) -/

/-- A structurally valid candidate whose optional `detailed_evaluation`
is absent. -/
def candNoDetail : Candidate :=
  Candidate.mk (some "Alice") (some "Suitable") none none none

/-- A structurally valid result whose only deviation from the happy
path is `candNoDetail`'s missing `detailed_evaluation`. -/
def exNoDetail : JsonData :=
  JsonData.mk (some "ToR text") (some [CriterionEntry.mk "Education" (some 10)])
    (some [candNoDetail]) (some [])
    (some (FinalRecommendation.mk (some "Alice") (some "Hire")
      (some (Justification.jstr "ok"))))

/-- C4: the engine is *not* total on structurally valid input.  With a
candidate whose `detailed_evaluation` is absent, both the export
(`candidate.detailed_evaluation.map` at line 338,
`...find` at line 219) and the UI's CV-comparison table (line 1008)
throw a `TypeError` (modelled as `none`); likewise when `candidates` is
absent the export's `reportData.candidates.flatMap` (line 269) throws,
and when `criteria` is absent `data?.criteria.map` (line 214) throws in
both renderings.  Restoring the array makes the same input render. -/
theorem missing_fields_throw :
    docxChildren exNoDetail = none ∧
    uiResults exNoDetail = none ∧
    docxChildren (JsonData.mk exNoDetail.tor_text exNoDetail.criteria none
      exNoDetail.comparison_matrix exNoDetail.final_recommendation) = none ∧
    docxChildren (JsonData.mk exNoDetail.tor_text none exNoDetail.candidates
      exNoDetail.comparison_matrix exNoDetail.final_recommendation) = none ∧
    uiResults (JsonData.mk exNoDetail.tor_text none exNoDetail.candidates
      exNoDetail.comparison_matrix exNoDetail.final_recommendation) = none ∧
    (docxChildren (JsonData.mk exNoDetail.tor_text exNoDetail.criteria
      (some [Candidate.mk (some "Alice") (some "Suitable") none none (some [])])
      exNoDetail.comparison_matrix exNoDetail.final_recommendation)).isSome = true :=
  ⟨rfl, rfl, rfl, rfl, rfl, rfl⟩

/-! ## Justification-variant branching (C2) -/

/-- C2 (amended): both renderings branch on
`typeof justification === "string"`.  String variant: each rendering
contains exactly the single justification block and no structured
blocks.  Structured (or absent) variant with an absent or empty
`why_not_others`: both renderings render zero candidate/reason pairs,
and the *UI* ends with the empty-state line
`No other candidates evaluated.` — the export omits that line. -/
theorem justification_branching (fr : Option FinalRecommendation) :
    (∀ s, frJust fr = some (Justification.jstr s) →
      docxJustificationNodes fr =
        [DocNode.heading2 "Justification",
         DocNode.para (jsOrStr (some s) "No justification provided.")] ∧
      uiJustificationNodes fr =
        [UiNode.catHeader "Justification",
         UiNode.textBlock (jsOrStr (some s) "No justification provided.")]) ∧
    ((∀ s, frJust fr ≠ some (Justification.jstr s)) →
      (jWhyNotOthers (frJust fr) = none ∨ jWhyNotOthers (frJust fr) = some []) →
      docxJustificationNodes fr =
        [DocNode.heading2 "Detailed Explanation",
         DocNode.para (jsOrStr (jDetailedExplanation (frJust fr))
           "No detailed explanation provided."),
         DocNode.heading2 "Why Recommended Candidate",
         DocNode.para (jsOrStr (jWhyHe (frJust fr))
           "No reason provided for recommended candidate."),
         DocNode.heading2 "Why Not Other Candidates"] ∧
      uiJustificationNodes fr =
        [UiNode.catHeader "Detailed Explanation",
         UiNode.textBlock (jsOrStr (jDetailedExplanation (frJust fr))
           "No detailed explanation provided."),
         UiNode.catHeader "Why Recommended Candidate",
         UiNode.textBlock (jsOrStr (jWhyHe (frJust fr))
           "No reason provided for recommended candidate."),
         UiNode.catHeader "Why Not Other Candidates",
         UiNode.textBlock "No other candidates evaluated."]) := by
  constructor
  · intro s hs
    constructor
    · unfold docxJustificationNodes
      rw [hs]
    · unfold uiJustificationNodes
      rw [hs]
  · intro hns hemp
    cases hj : frJust fr with
    | none =>
      constructor
      · unfold docxJustificationNodes
        rw [hj]
        rfl
      · unfold uiJustificationNodes
        rw [hj]
        rfl
    | some j =>
      cases j with
      | jstr s => exact absurd hj (hns s)
      | jobj de wh wno =>
        rw [hj] at hemp
        have hwno : wno = none ∨ wno = some [] := by
          simpa [jWhyNotOthers] using hemp
        rcases hwno with rfl | rfl <;>
          exact ⟨by unfold docxJustificationNodes; rw [hj]; rfl,
                 by unfold uiJustificationNodes; rw [hj]; rfl⟩

/-- The structured-and-empty final recommendation used to witness C2. -/
def frEmptyOthers : Option FinalRecommendation :=
  some (FinalRecommendation.mk (some "A") (some "Hire")
    (some (Justification.jobj (some "expl") (some "why") (some []))))

/-- C2 witness: structured justification with an explicitly empty
`why_not_others` list. -/
theorem justification_branching_witness :
    docxJustificationNodes frEmptyOthers =
      [DocNode.heading2 "Detailed Explanation",
       DocNode.para (jsOrStr (jDetailedExplanation (frJust frEmptyOthers))
         "No detailed explanation provided."),
       DocNode.heading2 "Why Recommended Candidate",
       DocNode.para (jsOrStr (jWhyHe (frJust frEmptyOthers))
         "No reason provided for recommended candidate."),
       DocNode.heading2 "Why Not Other Candidates"] ∧
    uiJustificationNodes frEmptyOthers =
      [UiNode.catHeader "Detailed Explanation",
       UiNode.textBlock (jsOrStr (jDetailedExplanation (frJust frEmptyOthers))
         "No detailed explanation provided."),
       UiNode.catHeader "Why Recommended Candidate",
       UiNode.textBlock (jsOrStr (jWhyHe (frJust frEmptyOthers))
         "No reason provided for recommended candidate."),
       UiNode.catHeader "Why Not Other Candidates",
       UiNode.textBlock "No other candidates evaluated."] :=
  (justification_branching frEmptyOthers).2
    (fun _ h => Justification.noConfusion (Option.some.inj h))
    (Or.inr rfl)

/-- C2 counterexample input: structured justification, empty
`why_not_others`, otherwise minimal. -/
def exEmptyOthers : JsonData :=
  JsonData.mk (some "T") (some []) (some []) (some [])
    (some (FinalRecommendation.mk (some "A") (some "Hire")
      (some (Justification.jobj (some "expl") (some "why") (some [])))))

/-- C2 counterexample: on the structured-and-empty variant the claim
requires the assembled export to contain the empty-state line
`No other candidates evaluated.`; the generated document contains no
node carrying that text (the line exists only in the UI rendering). -/
theorem docx_missing_empty_state_line :
    jWhyNotOthers (frJust exEmptyOthers.final_recommendation) = some [] ∧
    (docxChildren exEmptyOthers).map
        (fun ns => ns.countP (fun n => docNodeText n == "No other candidates evaluated."))
      = some 0 ∧
    (uiResults exEmptyOthers).map
        (fun ns => ns.countP (fun n => uiNodeText n == "No other candidates evaluated."))
      = some 1 := by
  refine ⟨rfl, ?_, ?_⟩ <;> decide

/-! ## Dual-rendering parity (C3) -/

/-- C3 counterexample input: one ranked row, no candidates. -/
def exOneRanked : JsonData :=
  JsonData.mk (some "T") (some []) (some [])
    (some [ComparisonMatrix.mk (some "A") (some 90) 1])
    (some (FinalRecommendation.mk (some "A") (some "Hire")
      (some (Justification.jstr "ok"))))

/-- C3 counterexample: the two renderings of the same input do not have
the same table content — the export's ranking table has a header row
`Candidate Name/Total Score/Rank` and a total-score column, while the
UI's ranking table has only `Name/Rank` — so structural parity fails. -/
theorem ui_export_tables_differ :
    (docxChildren exOneRanked).map docTables ≠ (uiResults exOneRanked).map uiTables := by
  decide

lemma filterMap_map_none {α β γ : Type} (f : α → β) (g : β → Option γ) (l : List α)
    (h : ∀ a, g (f a) = none) : (l.map f).filterMap g = [] := by
  induction l with
  | nil => rfl
  | cons a l ih => rw [List.map_cons, List.filterMap_cons_none (h a), ih]

lemma filterMap_flatMap_nil {α β γ : Type} (l : List α) (f : α → List β) (g : β → Option γ)
    (h : ∀ a ∈ l, (f a).filterMap g = []) : (l.flatMap f).filterMap g = [] := by
  induction l with
  | nil => rfl
  | cons a l ih =>
    rw [List.flatMap_cons, List.filterMap_append, h a (List.mem_cons_self a l),
      ih (fun b hb => h b (List.mem_cons_of_mem a hb))]
    rfl

lemma docH1Titles_candidateNodes (c : Candidate) (ev : List DetailedEvaluation) :
    docH1Titles (docxCandidateNodes c ev) = [] := by
  unfold docH1Titles docxCandidateNodes
  exact filterMap_map_none _ _ ev (fun a => rfl)

lemma docTables_candidateNodes (c : Candidate) (ev : List DetailedEvaluation) :
    docTables (docxCandidateNodes c ev) = [] := by
  unfold docTables docxCandidateNodes
  exact filterMap_map_none _ _ ev (fun a => rfl)

lemma uiSectionTitles_candidateNodes (c : Candidate) (ev : List DetailedEvaluation) :
    uiSectionTitles (uiCandidateNodes c ev) = [] := by
  unfold uiSectionTitles uiCandidateNodes
  exact filterMap_flatMap_nil ev _ _ (fun a _ => rfl)

lemma uiTables_candidateNodes (c : Candidate) (ev : List DetailedEvaluation) :
    uiTables (uiCandidateNodes c ev) = [] := by
  unfold uiTables uiCandidateNodes
  exact filterMap_flatMap_nil ev _ _ (fun a _ => rfl)

lemma docH1Titles_candBlocks (cevs : List (Candidate × List DetailedEvaluation)) :
    docH1Titles (cevs.flatMap (fun ce => docxCandidateNodes ce.1 ce.2)) = [] := by
  unfold docH1Titles
  exact filterMap_flatMap_nil cevs _ _ (fun ce _ => docH1Titles_candidateNodes ce.1 ce.2)

lemma docTables_candBlocks (cevs : List (Candidate × List DetailedEvaluation)) :
    docTables (cevs.flatMap (fun ce => docxCandidateNodes ce.1 ce.2)) = [] := by
  unfold docTables
  exact filterMap_flatMap_nil cevs _ _ (fun ce _ => docTables_candidateNodes ce.1 ce.2)

lemma uiSectionTitles_candBlocks (cevs : List (Candidate × List DetailedEvaluation)) :
    uiSectionTitles (cevs.flatMap (fun ce => uiCandidateNodes ce.1 ce.2)) = [] := by
  unfold uiSectionTitles
  exact filterMap_flatMap_nil cevs _ _ (fun ce _ => uiSectionTitles_candidateNodes ce.1 ce.2)

lemma uiTables_candBlocks (cevs : List (Candidate × List DetailedEvaluation)) :
    uiTables (cevs.flatMap (fun ce => uiCandidateNodes ce.1 ce.2)) = [] := by
  unfold uiTables
  exact filterMap_flatMap_nil cevs _ _ (fun ce _ => uiTables_candidateNodes ce.1 ce.2)

lemma docH1Titles_justNodes (fr : Option FinalRecommendation) :
    docH1Titles (docxJustificationNodes fr) = [] := by
  unfold docH1Titles docxJustificationNodes
  cases frJust fr with
  | none => rfl
  | some j =>
    cases j with
    | jstr s => rfl
    | jobj de wh wno =>
      cases wno with
      | none => rfl
      | some l => exact filterMap_flatMap_nil l _ _ (fun o _ => rfl)

lemma docTables_justNodes (fr : Option FinalRecommendation) :
    docTables (docxJustificationNodes fr) = [] := by
  unfold docTables docxJustificationNodes
  cases frJust fr with
  | none => rfl
  | some j =>
    cases j with
    | jstr s => rfl
    | jobj de wh wno =>
      cases wno with
      | none => rfl
      | some l => exact filterMap_flatMap_nil l _ _ (fun o _ => rfl)

lemma uiSectionTitles_justNodes (fr : Option FinalRecommendation) :
    uiSectionTitles (uiJustificationNodes fr) = [] := by
  unfold uiSectionTitles uiJustificationNodes
  cases frJust fr with
  | none => rfl
  | some j =>
    cases j with
    | jstr s => rfl
    | jobj de wh wno =>
      cases wno with
      | none => rfl
      | some l =>
        simp only [jWhyNotOthers, Option.getD_some]
        rw [List.filterMap_append, List.filterMap_append,
          filterMap_flatMap_nil l
            (fun o => [ UiNode.textBlock ("Candidate: " ++ jsOrStr o.candidate_name "Unnamed Candidate"),
                        UiNode.textBlock ("Reason: " ++ jsOrStr o.reason "No reason provided.") ])
            (fun n => match n with | UiNode.sectionHeader t => some t | _ => none)
            (fun o _ => rfl)]
        by_cases hl : (l.length == 0) = true
        · rw [if_pos hl]
          rfl
        · rw [if_neg hl]
          rfl

lemma uiTables_justNodes (fr : Option FinalRecommendation) :
    uiTables (uiJustificationNodes fr) = [] := by
  unfold uiTables uiJustificationNodes
  cases frJust fr with
  | none => rfl
  | some j =>
    cases j with
    | jstr s => rfl
    | jobj de wh wno =>
      cases wno with
      | none => rfl
      | some l =>
        simp only [jWhyNotOthers, Option.getD_some]
        rw [List.filterMap_append, List.filterMap_append,
          filterMap_flatMap_nil l
            (fun o => [ UiNode.textBlock ("Candidate: " ++ jsOrStr o.candidate_name "Unnamed Candidate"),
                        UiNode.textBlock ("Reason: " ++ jsOrStr o.reason "No reason provided.") ])
            (fun n => match n with | UiNode.table r => some r | _ => none)
            (fun o _ => rfl)]
        by_cases hl : (l.length == 0) = true
        · rw [if_pos hl]
          rfl
        · rw [if_neg hl]
          rfl

lemma docH1Titles_criteriaNodes (cs : List CriterionEntry) :
    docH1Titles (docxCriteriaNodes (some cs)) = [] := rfl

lemma docTables_criteriaNodes (cs : List CriterionEntry) :
    docTables (docxCriteriaNodes (some cs)) = [] := rfl

lemma uiSectionTitles_criteriaNodes (cs : List CriterionEntry) :
    uiSectionTitles (uiCriteriaNodes (some cs)) = [] := rfl

lemma uiTables_criteriaNodes (cs : List CriterionEntry) :
    uiTables (uiCriteriaNodes (some cs)) = [] := rfl

/-- The CV-comparison table is content-identical in the two renderings:
for every criterion column the fulfillment value is defined and
non-empty, so the UI's raw cell equals the export's `|| "N/A"` cell. -/
lemma cvRows_agree (allCrit : List String)
    (cevs : List (Candidate × List DetailedEvaluation)) :
    uiCvRows allCrit cevs = docxCvRows allCrit cevs := by
  unfold uiCvRows docxCvRows
  congr 1
  apply List.map_congr_left
  intro ce _
  congr 1
  apply List.map_congr_left
  intro crit hcrit
  have h : objGet (getFulfillmentForCandidate allCrit ce.2) crit
      = some (fulfillmentValue ce.2 crit) :=
    fold_objGet_mem ce.2 allCrit [] crit hcrit
  rw [h]
  have hne := fulfillmentValue_ne_empty ce.2 crit
  simp [jsOrStr, hne]

lemma docH1Titles_append (a b : List DocNode) :
    docH1Titles (a ++ b) = docH1Titles a ++ docH1Titles b := List.filterMap_append a b _

lemma docTables_append (a b : List DocNode) :
    docTables (a ++ b) = docTables a ++ docTables b := List.filterMap_append a b _

lemma uiSectionTitles_append (a b : List UiNode) :
    uiSectionTitles (a ++ b) = uiSectionTitles a ++ uiSectionTitles b :=
  List.filterMap_append a b _

lemma uiTables_append (a b : List UiNode) :
    uiTables (a ++ b) = uiTables a ++ uiTables b := List.filterMap_append a b _

/-- The six top-level section titles, common to both renderings. -/
def sectionTitleList : List String :=
  ["Terms of Reference", "Evaluation Criteria", "Candidates",
   "Comparison Ranking", "Final Recommendation", "CV Comparison Table"]

/-- C3 (amended): the two renderings agree on the ordered sequence of
top-level sections (the export additionally carries the document
title), and their CV-comparison tables are content-identical; but full
structural parity fails — the ranking tables have different columns
(see the counterexample), so the claim holds only at this weakened
level. -/
theorem docx_ui_partial_parity (d : JsonData) (cs : List CriterionEntry)
    (cands : List Candidate) (cevs : List (Candidate × List DetailedEvaluation))
    (hc : d.criteria = some cs) (hcand : d.candidates = some cands)
    (hev : extractEvals cands = some cevs) :
    (docxChildren d).map docH1Titles = some sectionTitleList ∧
    (uiResults d).map uiSectionTitles = some sectionTitleList ∧
    (docxChildren d).map docTables
      = some [docxRankingRows (sortedMatrixOf d.comparison_matrix),
              docxCvRows (allCriteriaNames cs) cevs] ∧
    (uiResults d).map uiTables
      = some [uiRankingRows (sortedMatrixOf d.comparison_matrix),
              docxCvRows (allCriteriaNames cs) cevs] := by
  refine ⟨?_, ?_, ?_, ?_⟩
  · simp only [docxChildren, hc, hcand, hev, Option.map_some']
    refine congrArg some ?_
    rw [docH1Titles_append, docH1Titles_append, docH1Titles_append, docH1Titles_append,
      docH1Titles_append, docH1Titles_append]
    rw [docH1Titles_criteriaNodes, docH1Titles_justNodes, docH1Titles_candBlocks]
    rfl
  · simp only [uiResults, hc, hcand, Option.getD_some, hev, Option.map_some']
    refine congrArg some ?_
    rw [uiSectionTitles_append, uiSectionTitles_append, uiSectionTitles_append,
      uiSectionTitles_append, uiSectionTitles_append, uiSectionTitles_append]
    rw [uiSectionTitles_criteriaNodes, uiSectionTitles_justNodes, uiSectionTitles_candBlocks]
    rfl
  · simp only [docxChildren, hc, hcand, hev, Option.map_some']
    refine congrArg some ?_
    rw [docTables_append, docTables_append, docTables_append, docTables_append,
      docTables_append, docTables_append]
    rw [docTables_criteriaNodes, docTables_justNodes, docTables_candBlocks]
    rfl
  · simp only [uiResults, hc, hcand, Option.getD_some, hev, Option.map_some']
    refine congrArg some ?_
    rw [uiTables_append, uiTables_append, uiTables_append, uiTables_append,
      uiTables_append, uiTables_append]
    rw [uiTables_criteriaNodes, uiTables_justNodes, uiTables_candBlocks, cvRows_agree]
    rfl

/-- C3 witness: the amended parity at a concrete input with one ranked
row and no candidates. -/
theorem docx_ui_partial_parity_witness :
    exOneRanked.criteria = some [] ∧
    (docxChildren exOneRanked).map docH1Titles = some sectionTitleList ∧
    (uiResults exOneRanked).map uiSectionTitles = some sectionTitleList :=
  ⟨rfl,
    (docx_ui_partial_parity exOneRanked [] [] [] rfl rfl rfl).1,
    (docx_ui_partial_parity exOneRanked [] [] [] rfl rfl rfl).2.1⟩
